import Mathlib

/-!
Shallow embedding of the batching/windowing data-feed pipeline of
`src/lstm/lstm_frag.py` (repository `contextualLSTM`), together with the
configuration phase of `main` and the state threading of `run_epoch`.

The source's generator `generate_arrays_from_list` works on a token file
parsed into a flat list of integer ids.  We embed:

  * `batchLen`, `reshapeData` : the `n_words // batch_size` arithmetic and
    the `np.reshape(raw_list[0:batch_size*batch_len], [batch_size, batch_len])`
    step (line 121-122 of the source);
  * `pySlice` : numpy basic slicing `r[lo:hi]` along the column axis,
    which clamps out-of-range bounds instead of failing;
  * `loopIdxs` : the values taken by the Python loop variable in
    `for i in range(0, n_words - num_steps, num_steps)` (line 124);
  * `stepAt` : one iteration of the loop body — the `x` and `y` column
    slices `data[0:batch_size, i*num_steps:(i+1)*num_steps]` and
    `data[0:batch_size, i*num_steps+1:(i+1)*num_steps+1]` (lines 126, 128),
    the `if len(x[0]) < num_steps: break` guard (line 136), and the
    `np.reshape(y, (batch_size, num_steps))` call (line 140) which raises
    `ValueError` when the element count does not match;
  * `runSteps`, `processFile` : the whole per-file loop, returning the
    emitted `(x_ids, y)` batches plus a crash flag;
  * `embLookup`, `embedX` : the embedding lookup
    `embeddings[int(elem)][2]` (line 127);
  * `epochTrace`, `runEpochAt` : the recurrent-state threading of
    `run_epoch` (lines 349-387): the state is set from
    `model.initial_state` (the zero state) on entry and is overwritten by
    `vals["final_state"]` after each step;
  * `ModelConfig`, presets, `writeHeap`, `mainConfigPhase` : the
    configuration phase of `main` (lines 423-451), with Python reference
    semantics made explicit through a small heap of config objects.

Floating-point hyperparameters (`init_scale`, `learning_rate`,
`keep_prob`, `lr_decay`) are not read by any of the verified properties
and are left out of the config record.
-/

namespace ContextualLSTM

/-- A 2-D array of token ids, as produced by `np.reshape`: a list of rows. -/
abbrev Mat := List (List Nat)

/-- `batch_len = n_words // batch_size` (source line 121). -/
def batchLen (n_words batch_size : Nat) : Nat := n_words / batch_size

/-- numpy basic slice `r[lo:hi]` (with `0 ≤ lo ≤ hi`): the elements at
positions `lo, lo+1, ..., hi-1`, silently clamped to the row's length. -/
def pySlice (r : List Nat) (lo hi : Nat) : List Nat :=
  (r.drop lo).take (hi - lo)

/-- `data = np.reshape(raw_list[0:batch_size*batch_len], [batch_size, batch_len])`
(source line 122): row `b` holds the ids at positions
`b*batch_len .. (b+1)*batch_len - 1` of the raw token list. -/
def reshapeData (raw : List Nat) (batch_size : Nat) : Mat :=
  let bl := batchLen raw.length batch_size
  (List.range batch_size).map (fun b => (raw.drop (b * bl)).take bl)

/-- The successive values of the Python loop variable in
`for i in range(0, n_words - num_steps, num_steps)` (source line 124):
`0, num_steps, 2*num_steps, ...` while `< n_words - num_steps`. -/
def loopIdxs (n_words num_steps : Nat) : List Nat :=
  (List.range (((n_words - num_steps) + num_steps - 1) / num_steps)).map
    (fun k => k * num_steps)

/-- `x = data[0:batch_size, i*num_steps:(i+1)*num_steps]` (source line 126). -/
def xSliceAt (data : Mat) (num_steps i : Nat) : Mat :=
  data.map (fun r => pySlice r (i * num_steps) ((i + 1) * num_steps))

/-- `y = data[0:batch_size, i*num_steps+1:(i+1)*num_steps+1]` (source line 128). -/
def ySliceAt (data : Mat) (num_steps i : Nat) : Mat :=
  data.map (fun r => pySlice r (i * num_steps + 1) ((i + 1) * num_steps + 1))

/-- Outcome of one iteration of the windowing loop body. -/
inductive StepRes where
  /-- the iteration reaches `yield x, y` -/
  | emit (x y : Mat) : StepRes
  /-- `if len(x[0]) < num_steps: break` fires (source line 136) -/
  | stop : StepRes
  /-- an exception escapes the generator: `IndexError` on `x[0]` when
  `batch_size = 0`, or `ValueError` from `np.reshape(y, (batch_size,
  num_steps))` when `y` does not hold `batch_size*num_steps` elements -/
  | err : StepRes
deriving DecidableEq, Repr

/-- One iteration of the loop body at loop value `i` (source lines 126-145):
slice `x` and `y`, test `len(x[0]) < num_steps`, then reshape `y` to
`(batch_size, num_steps)` — which raises `ValueError` unless `y` holds
exactly `batch_size * num_steps` elements. -/
def stepAt (data : Mat) (num_steps i : Nat) : StepRes :=
  let x := xSliceAt data num_steps i
  let y := ySliceAt data num_steps i
  match x with
  | [] => .err
  | x0 :: _ =>
    if x0.length < num_steps then .stop
    else if (y.map List.length).sum ≠ data.length * num_steps then .err
    else .emit x y

/-- Run the loop body over the given loop values in order, collecting the
emitted `(x_ids, y)` batches; the Bool records whether an exception
escaped (`true` = crash). A `stop` ends the file normally. -/
def runSteps (data : Mat) (num_steps : Nat) : List Nat → List (Mat × Mat) × Bool
  | [] => ([], false)
  | i :: rest =>
    match stepAt data num_steps i with
    | .stop => ([], false)
    | .err => ([], true)
    | .emit x y =>
      ((x, y) :: (runSteps data num_steps rest).1, (runSteps data num_steps rest).2)

/-- Everything `generate_arrays_from_list` does with one file's token list
(source lines 118-145): reshape, then run the windowing loop.  Returns the
emitted `(x_ids, y)` batches and whether the generator crashed on this
file (a crash aborts the whole pipeline; otherwise it moves to the next
file). -/
def processFile (raw : List Nat) (num_steps batch_size : Nat) :
    List (Mat × Mat) × Bool :=
  runSteps (reshapeData raw batch_size) num_steps (loopIdxs raw.length num_steps)

/-- The embedding lookup applied to each id of `x`:
`embeddings[int(elem)][2]` (source line 127) — the element at index 2 of
the store's entry for the id (`none` models the `IndexError` raised when
the entry has fewer than 3 elements). -/
def embLookup {α : Type} (embeddings : Nat → List α) (elem : Nat) : Option α :=
  (embeddings elem).get? 2

/-- `x = [[embeddings[int(elem)][2] for elem in l] for l in x]`
(source line 127). -/
def embedX {α : Type} (embeddings : Nat → List α) (x : Mat) :
    List (List (Option α)) :=
  x.map (fun l => l.map (embLookup embeddings))

/-! ### The `run_epoch` training loop (source lines 349-387)

`run_epoch` initialises `state = session.run(model.initial_state)` — the
model's zero state (line 355, `cell.zero_state` at line 183) — and then,
for each of the `epoch_size` steps, feeds the current `state` plus the
next generator batch into the session and overwrites `state` with the
returned `final_state` (lines 365-377).  The compute engine is abstracted
as a function `stepF : σ → β → σ` from (fed state, batch) to returned
final state. -/

/-- The trace of `run_epoch`'s inner loop from a given starting state:
one `(fed state, returned state)` pair per step, where the fed state of
the first step is the start state and each later fed state is the state
variable as left by the previous step. -/
def epochTrace {σ β : Type} (stepF : σ → β → σ) : σ → List β → List (σ × σ)
  | _, [] => []
  | s, b :: bs => (s, stepF s b) :: epochTrace stepF (stepF s b) bs

/-- One `run_epoch` call: the state is (re)set to the model's zero state
on entry (source line 355), and `epoch_size` batches are drawn from the
generator stream starting at its current position `pos` (the stream
persists across calls; `generator.next()` at line 366).  Returns the step
trace and the generator's new position. -/
def runEpochAt {σ β : Type} (stepF : σ → β → σ) (zeroState : σ)
    (stream : Nat → β) (pos epoch_size : Nat) : List (σ × σ) × Nat :=
  (epochTrace stepF zeroState ((List.range epoch_size).map (fun k => stream (pos + k))),
   pos + epoch_size)

/-! ### The configuration phase of `main` (source lines 413-451)

Python variables hold references to config objects; `valid_config =
config` (line 426) copies the reference, so `config` and `valid_config`
name one object, while `eval_config = get_config()` (line 429) creates a
second object.  We embed this with a heap of config objects indexed by
address and an environment mapping the three variable names to
addresses. -/

/-- The integer-valued hyperparameters of the config classes
(source lines 280-346).  The float-valued fields (`init_scale`,
`learning_rate`, `keep_prob`, `lr_decay`) are not read by any verified
property and are omitted.  `epoch_size` is an integer because
`get_epoch_size` (line 409) computes `((total // batch_size) - 1) //
num_steps`, which is negative for an empty file list. -/
structure ModelConfig where
  max_grad_norm : Nat
  num_layers : Nat
  num_steps : Nat
  hidden_size : Nat
  max_epoch : Nat
  max_max_epoch : Nat
  batch_size : Nat
  vocab_size : Nat
  embedding_size : Nat
  epoch_size : Int
deriving DecidableEq, Repr

/-- `SmallConfig` (source lines 280-295). -/
def SmallConfig : ModelConfig :=
  ⟨5, 1, 20, 200, 4, 13, 20, 126930, 200, 1⟩

/-- `MediumConfig` (source lines 297-312). -/
def MediumConfig : ModelConfig :=
  ⟨5, 1, 35, 650, 6, 39, 20, 126930, 200, 1⟩

/-- `LargeConfig` (source lines 314-329). -/
def LargeConfig : ModelConfig :=
  ⟨10, 1, 35, 1024, 14, 55, 20, 126930, 1000, 1⟩

/-- `TestConfig` (source lines 331-346). -/
def TestConfig : ModelConfig :=
  ⟨1, 1, 2, 2, 1, 1, 10, 126930, 200, 1⟩

/-- `get_config()` (source lines 390-400): returns a fresh preset object,
or raises `ValueError` (modelled by `none`) for an unknown model name. -/
def get_config (model : String) : Option ModelConfig :=
  if model = "small" then some SmallConfig
  else if model = "medium" then some MediumConfig
  else if model = "large" then some LargeConfig
  else if model = "test" then some TestConfig
  else none

/-- Store a config object at a heap address. -/
def writeHeap (h : Nat → ModelConfig) (a : Nat) (c : ModelConfig) :
    Nat → ModelConfig :=
  fun a2 => if a2 = a then c else h a2

/-- The variable environment after `main`'s configuration phase: which
heap address each of the three config variables refers to. -/
structure MainEnv where
  configRef : Nat
  valid_configRef : Nat
  eval_configRef : Nat
deriving DecidableEq, Repr

/-- The configuration phase of `main` (source lines 423-443), executed in
source order on an explicit heap.  `preset` is the object returned by
`get_config()`; `trainSize`, `validSize`, `evalSize` are the values of
`get_epoch_size` on the training, validation and testing lists.

  * line 423-424: `config = get_config(); config.vocab_size = vocab_size`
    — object at address 0;
  * line 426: `valid_config = config` — reference copy, no new object;
  * line 429-432: `eval_config = get_config(); eval_config.batch_size = 1;
    eval_config.num_steps = 1; eval_config.vocab_size = vocab_size`
    — fresh object at address 1;
  * line 441: `config.epoch_size = get_epoch_size(training_list, config)`;
  * line 442: `valid_config.epoch_size = get_epoch_size(validation_list,
    valid_config)`;
  * line 443: `eval_config.epoch_size = get_epoch_size(testing_list,
    eval_config)`. -/
def mainConfigPhase (preset : ModelConfig) (trainSize validSize evalSize : Int) :
    MainEnv × (Nat → ModelConfig) :=
  let heap0 : Nat → ModelConfig := fun _ => preset
  let configRef : Nat := 0
  let heap1 := writeHeap heap0 configRef { heap0 configRef with vocab_size := 126930 }
  let valid_configRef : Nat := configRef
  let eval_configRef : Nat := 1
  let heap2 := writeHeap heap1 eval_configRef preset
  let heap3 := writeHeap heap2 eval_configRef { heap2 eval_configRef with batch_size := 1 }
  let heap4 := writeHeap heap3 eval_configRef { heap3 eval_configRef with num_steps := 1 }
  let heap5 := writeHeap heap4 eval_configRef { heap4 eval_configRef with vocab_size := 126930 }
  let heap6 := writeHeap heap5 configRef { heap5 configRef with epoch_size := trainSize }
  let heap7 := writeHeap heap6 valid_configRef { heap6 valid_configRef with epoch_size := validSize }
  let heap8 := writeHeap heap7 eval_configRef { heap7 eval_configRef with epoch_size := evalSize }
  (⟨configRef, valid_configRef, eval_configRef⟩, heap8)

/-- The `(batch_size, num_steps)` the test generator `gen_test` is built
with (source lines 450-451): it reads `config.batch_size` and
`config.num_steps`, not `eval_config`'s. -/
def genTestShapeParams (st : MainEnv × (Nat → ModelConfig)) : Nat × Nat :=
  ((st.2 st.1.configRef).batch_size, (st.2 st.1.configRef).num_steps)

/-- The `(batch_size, num_steps)` of the test model's placeholders
(source lines 192-193 with `config := eval_config`, line 476): `mtest`'s
`inputs` placeholder has shape `(batch_size, num_steps, embedding_size)`
and `targets` has shape `(batch_size, num_steps)`. -/
def mtestShapeParams (st : MainEnv × (Nat → ModelConfig)) : Nat × Nat :=
  ((st.2 st.1.eval_configRef).batch_size, (st.2 st.1.eval_configRef).num_steps)

/-! ### Basic lemmas about the embedding -/

theorem length_reshapeData (raw : List Nat) (bs : Nat) :
    (reshapeData raw bs).length = bs := by
  simp [reshapeData]

theorem batchLen_mul_le (raw : List Nat) (bs : Nat) :
    bs * batchLen raw.length bs ≤ raw.length := by
  rw [batchLen, Nat.mul_comm]
  exact Nat.div_mul_le_self _ _

theorem mem_reshapeData_length {raw : List Nat} {bs : Nat} {r : List Nat}
    (hr : r ∈ reshapeData raw bs) :
    r.length = batchLen raw.length bs := by
  simp only [reshapeData, List.mem_map, List.mem_range] at hr
  obtain ⟨b, hb, rfl⟩ := hr
  rw [List.length_take, List.length_drop]
  have h1 : (b + 1) * batchLen raw.length bs ≤ bs * batchLen raw.length bs :=
    Nat.mul_le_mul_right _ hb
  have h2 : bs * batchLen raw.length bs ≤ raw.length := batchLen_mul_le raw bs
  rw [Nat.succ_mul] at h1
  omega

theorem pySlice_length (r : List Nat) (lo hi : Nat) :
    (pySlice r lo hi).length = min (hi - lo) (r.length - lo) := by
  simp [pySlice]

theorem pySlice_getElem? (r : List Nat) (lo hi t : Nat) (ht : t < hi - lo) :
    (pySlice r lo hi)[t]? = r[lo + t]? := by
  rw [pySlice, List.getElem?_take, if_pos ht, List.getElem?_drop]

theorem xSliceAt_width (i ns : Nat) : (i + 1) * ns - i * ns = ns := by
  rw [Nat.succ_mul]; omega

theorem sum_map_length_const {l : List (List Nat)} {w : Nat}
    (h : ∀ r ∈ l, r.length = w) :
    (l.map List.length).sum = l.length * w := by
  induction l with
  | nil => simp
  | cons a t ih =>
    simp only [List.map_cons, List.sum_cons, List.length_cons, Nat.succ_mul]
    rw [h a (by simp), ih (fun r hr => h r (List.mem_cons_of_mem _ hr))]
    omega

theorem stepAt_eq_nil {data : Mat} {ns i : Nat}
    (hd : xSliceAt data ns i = []) : stepAt data ns i = .err := by
  unfold stepAt
  rw [hd]

theorem stepAt_eq_cons {data : Mat} {ns i : Nat} {x0 : List Nat}
    {xs : List (List Nat)} (hd : xSliceAt data ns i = x0 :: xs) :
    stepAt data ns i =
      if x0.length < ns then .stop
      else if ((ySliceAt data ns i).map List.length).sum ≠ data.length * ns then .err
      else .emit (x0 :: xs) (ySliceAt data ns i) := by
  unfold stepAt
  rw [hd]

theorem stepAt_emit_facts {data : Mat} {ns i : Nat} {x y : Mat}
    (h : stepAt data ns i = .emit x y) :
    x = xSliceAt data ns i ∧ y = ySliceAt data ns i ∧
    data ≠ [] ∧
    ¬ (xSliceAt data ns i).headI.length < ns ∧
    ((ySliceAt data ns i).map List.length).sum = data.length * ns := by
  rcases hd : xSliceAt data ns i with _ | ⟨x0, xs⟩
  · rw [stepAt_eq_nil hd] at h; exact absurd h (by simp)
  · rw [stepAt_eq_cons hd] at h
    by_cases hlt : x0.length < ns
    · rw [if_pos hlt] at h; exact absurd h (by simp)
    · rw [if_neg hlt] at h
      by_cases hsum : ((ySliceAt data ns i).map List.length).sum = data.length * ns
      · rw [if_neg (by simpa using hsum)] at h
        injection h with h1 h2
        refine ⟨h1.symm, h2.symm, ?_, by simpa using hlt, hsum⟩
        intro hnil
        rw [hnil] at hd
        simp [xSliceAt] at hd
      · rw [if_pos (by simpa using hsum)] at h
        exact absurd h (by simp)

theorem runSteps_cons_stop {data : Mat} {ns i : Nat} {rest : List Nat}
    (hs : stepAt data ns i = .stop) :
    runSteps data ns (i :: rest) = ([], false) := by
  conv_lhs => rw [runSteps]
  rw [hs]

theorem runSteps_cons_err {data : Mat} {ns i : Nat} {rest : List Nat}
    (hs : stepAt data ns i = .err) :
    runSteps data ns (i :: rest) = ([], true) := by
  conv_lhs => rw [runSteps]
  rw [hs]

theorem runSteps_cons_emit {data : Mat} {ns i : Nat} {rest : List Nat}
    {x y : Mat} (hs : stepAt data ns i = .emit x y) :
    runSteps data ns (i :: rest) =
      ((x, y) :: (runSteps data ns rest).1, (runSteps data ns rest).2) := by
  conv_lhs => rw [runSteps]
  rw [hs]

theorem mem_runSteps {data : Mat} {ns : Nat} :
    ∀ {is : List Nat} {p : Mat × Mat}, p ∈ (runSteps data ns is).1 →
      ∃ i ∈ is, stepAt data ns i = .emit p.1 p.2 := by
  intro is
  induction is with
  | nil => intro p hp; simp [runSteps] at hp
  | cons i rest ih =>
    intro p hp
    cases hs : stepAt data ns i with
    | emit x y =>
      rw [runSteps_cons_emit hs] at hp
      rcases List.mem_cons.mp hp with hhead | htail
      · exact ⟨i, by simp, by rw [hhead]; exact hs⟩
      · obtain ⟨j, hj, hjs⟩ := ih htail
        exact ⟨j, List.mem_cons_of_mem _ hj, hjs⟩
    | stop => rw [runSteps_cons_stop hs] at hp; simp at hp
    | err => rw [runSteps_cons_err hs] at hp; simp at hp

theorem succ_mul_sub (i ns : Nat) : (i + 1) * ns + 1 - (i * ns + 1) = ns := by
  rw [Nat.succ_mul]; omega

theorem emit_facts {raw : List Nat} {ns bs i : Nat} {x y : Mat}
    (hbs : 0 < bs) (hns : 0 < ns)
    (h : stepAt (reshapeData raw bs) ns i = .emit x y) :
    x = xSliceAt (reshapeData raw bs) ns i ∧
    y = ySliceAt (reshapeData raw bs) ns i ∧
    i * ns + ns + 1 ≤ batchLen raw.length bs := by
  obtain ⟨hx, hy, hne, hhead, hsum⟩ := stepAt_emit_facts h
  refine ⟨hx, hy, ?_⟩
  have hw : ∀ r ∈ ySliceAt (reshapeData raw bs) ns i,
      r.length = min ns (batchLen raw.length bs - (i * ns + 1)) := by
    intro r hr
    simp only [ySliceAt, List.mem_map] at hr
    obtain ⟨r0, hr0, rfl⟩ := hr
    rw [pySlice_length, mem_reshapeData_length hr0, succ_mul_sub]
  rw [sum_map_length_const hw] at hsum
  rw [ySliceAt, List.length_map, length_reshapeData] at hsum
  have hwns : min ns (batchLen raw.length bs - (i * ns + 1)) = ns :=
    Nat.eq_of_mul_eq_mul_left hbs hsum
  have hle : ns ≤ batchLen raw.length bs - (i * ns + 1) :=
    hwns.symm.trans_le (Nat.min_le_right _ _)
  omega

theorem mem_processFile_facts {raw : List Nat} {ns bs : Nat} {p : Mat × Mat}
    (hbs : 0 < bs) (hns : 0 < ns)
    (hp : p ∈ (processFile raw ns bs).1) :
    ∃ i, p.1 = xSliceAt (reshapeData raw bs) ns i ∧
      p.2 = ySliceAt (reshapeData raw bs) ns i ∧
      i * ns + ns + 1 ≤ batchLen raw.length bs := by
  unfold processFile at hp
  obtain ⟨i, _, hstep⟩ := mem_runSteps hp
  obtain ⟨h1, h2, h3⟩ := emit_facts hbs hns hstep
  exact ⟨i, h1, h2, h3⟩

theorem emitted_batch_dims {raw : List Nat} {ns bs : Nat} {p : Mat × Mat}
    (hbs : 0 < bs) (hns : 0 < ns)
    (hp : p ∈ (processFile raw ns bs).1) :
    p.1.length = bs ∧ (∀ r ∈ p.1, r.length = ns) ∧
    p.2.length = bs ∧ (∀ r ∈ p.2, r.length = ns) := by
  obtain ⟨i, hx, hy, hbound⟩ := mem_processFile_facts hbs hns hp
  refine ⟨?_, ?_, ?_, ?_⟩
  · rw [hx, xSliceAt, List.length_map, length_reshapeData]
  · intro r hr
    rw [hx] at hr
    simp only [xSliceAt, List.mem_map] at hr
    obtain ⟨r0, hr0, rfl⟩ := hr
    rw [pySlice_length, mem_reshapeData_length hr0, xSliceAt_width]
    omega
  · rw [hy, ySliceAt, List.length_map, length_reshapeData]
  · intro r hr
    rw [hy] at hr
    simp only [ySliceAt, List.mem_map] at hr
    obtain ⟨r0, hr0, rfl⟩ := hr
    rw [pySlice_length, mem_reshapeData_length hr0, succ_mul_sub]
    omega

/-! ### The spec's description of the windowing, for comparison -/

/-- The sequence of `x_ids` windows as the spec describes the pipeline
(spec section 4.1, step 4): a window of width `num_steps` slides along the
column axis with stride `num_steps`, at offsets `i = 0, num_steps,
2*num_steps, ...` while `i + num_steps < batch_len`, with
`x_ids = data[:, i : i+num_steps]`.  Stated from the spec's words, to be
compared with the source-derived `processFile`. -/
def specXWindows (raw : List Nat) (num_steps batch_size : Nat) : List Mat :=
  (List.range (((batchLen raw.length batch_size - num_steps) + num_steps - 1) / num_steps)).map
    (fun k => (reshapeData raw batch_size).map
      (fun r => pySlice r (k * num_steps) (k * num_steps + num_steps)))

/-! ### Claim theorems -/

/-- Claim C1 (code bug): the emitted windows are NOT at column offsets
`0, num_steps, 2*num_steps, ...`.  The loop variable `i` itself strides by
`num_steps`, but the slice is `data[:, i*num_steps:(i+1)*num_steps]`
(source lines 124, 126), so the realized column offsets are
`0, num_steps^2, 2*num_steps^2, ...` — for the 12-token file `1..12` with
`num_steps = 2`, `batch_size = 1`, the code emits the windows at columns
0, 4 and 8 (`[[1,2]], [[5,6]], [[9,10]]`), skipping two columns between
successive windows, while the spec's stride-`num_steps` windowing
(`specXWindows`) would emit five consecutive windows. -/
theorem window_offsets_stride_num_steps_squared :
    (processFile [1, 2, 3, 4, 5, 6, 7, 8, 9, 10, 11, 12] 2 1).1.map Prod.fst
      = [[[1, 2]], [[5, 6]], [[9, 10]]] ∧
    specXWindows [1, 2, 3, 4, 5, 6, 7, 8, 9, 10, 11, 12] 2 1
      = [[[1, 2]], [[3, 4]], [[5, 6]], [[7, 8]], [[9, 10]]] ∧
    (processFile [1, 2, 3, 4, 5, 6, 7, 8, 9, 10, 11, 12] 2 1).1.map Prod.fst
      ≠ specXWindows [1, 2, 3, 4, 5, 6, 7, 8, 9, 10, 11, 12] 2 1 :=
  ⟨by decide, by decide, by decide⟩

/-- Claim C2 (code bug): on the spec's concrete scenario — tokens
`1 .. 10`, `batch_size = 2`, `num_steps = 2` — the code emits exactly ONE
batch, not two: the first batch is as the claim states, but at the next
loop value `i = 2` the slice is `data[:, 4:6]`, which has realized width 1
(`batch_len = 5`), so the `len(x[0]) < num_steps` guard fires and the file
ends.  The claimed second batch `[[3,4],[8,9]]` is never produced. -/
theorem concrete_file_emits_single_batch :
    processFile [1, 2, 3, 4, 5, 6, 7, 8, 9, 10] 2 2
      = ([([[1, 2], [6, 7]], [[2, 3], [7, 8]])], false) ∧
    (processFile [1, 2, 3, 4, 5, 6, 7, 8, 9, 10] 2 2).1.length ≠ 2 :=
  ⟨by decide, by decide⟩

/-- Claim C3 (code bug): the tail is NOT always dropped silently.  When
the `x` window is full width but the shifted `y` window runs past the end
of the reshaped array — file `1 2 3 4`, `batch_size = 2`, `num_steps = 1`:
`batch_len = 2`, at loop value `i = 1` `x = data[:, 1:2]` has full width 1
but `y = data[:, 2:3]` is empty — the `len(x[0]) < num_steps` guard does
not fire and `np.reshape(y, (2, 1))` raises `ValueError` (the crash flag
is `true`), instead of moving to the next file. -/
theorem tail_full_x_short_y_raises_value_error :
    processFile [1, 2, 3, 4] 1 2 = ([([[1], [3]], [[2], [4]])], true) := by
  decide

/-- Claim C4: every batch the pipeline actually emits has `y` equal to
`x`'s token stream shifted right by exactly one column: there is a single
window origin `c` (one per batch) with `x_ids[b][t] = data[b][c + t]` and
`y[b][t] = data[b][c + t + 1]` for all rows `b` and steps `t`, all indices
falling inside the reshaped row (the final conjunct shows the position
`c + t + 1` really exists in the row). -/
theorem emitted_y_is_x_shifted_one_column (raw : List Nat) (ns bs : Nat)
    (hbs : 0 < bs) (hns : 0 < ns) (p : Mat × Mat)
    (hp : p ∈ (processFile raw ns bs).1) :
    ∃ c : Nat, c + ns + 1 ≤ batchLen raw.length bs ∧
      ∀ b : Nat, b < bs → ∀ t : Nat, t < ns →
        ((p.1[b]?).getD [])[t]? = (((reshapeData raw bs)[b]?).getD [])[c + t]? ∧
        ((p.2[b]?).getD [])[t]? = (((reshapeData raw bs)[b]?).getD [])[c + t + 1]? ∧
        (((reshapeData raw bs)[b]?).getD [])[c + t + 1]? ≠ none := by
  obtain ⟨i, hx, hy, hbound⟩ := mem_processFile_facts hbs hns hp
  refine ⟨i * ns, hbound, ?_⟩
  intro b hb t ht
  have hb' : b < (reshapeData raw bs).length := by
    rw [length_reshapeData]; exact hb
  have hrow : (reshapeData raw bs)[b]? = some (reshapeData raw bs)[b] :=
    List.getElem?_eq_getElem hb'
  have hrowlen : (reshapeData raw bs)[b].length = batchLen raw.length bs :=
    mem_reshapeData_length (List.getElem_mem hb')
  have hxb : (p.1[b]?).getD [] =
      pySlice (reshapeData raw bs)[b] (i * ns) ((i + 1) * ns) := by
    rw [hx, xSliceAt, List.getElem?_map, hrow]
    rfl
  have hyb : (p.2[b]?).getD [] =
      pySlice (reshapeData raw bs)[b] (i * ns + 1) ((i + 1) * ns + 1) := by
    rw [hy, ySliceAt, List.getElem?_map, hrow]
    rfl
  have htx : t < (i + 1) * ns - i * ns := by rw [xSliceAt_width]; exact ht
  have hty : t < (i + 1) * ns + 1 - (i * ns + 1) := by rw [succ_mul_sub]; exact ht
  refine ⟨?_, ?_, ?_⟩
  · rw [hxb, pySlice_getElem? _ _ _ _ htx, hrow, Option.getD_some]
  · rw [hyb, pySlice_getElem? _ _ _ _ hty, hrow, Option.getD_some]
    have harith : i * ns + 1 + t = i * ns + t + 1 := by omega
    rw [harith]
  · rw [hrow, Option.getD_some]
    have hlt : i * ns + t + 1 < (reshapeData raw bs)[b].length := by
      rw [hrowlen]; omega
    rw [List.getElem?_eq_getElem hlt]
    simp

/-- Concrete instance of `emitted_y_is_x_shifted_one_column`: the single
batch emitted for the file `1 .. 10` with `batch_size = 2`,
`num_steps = 2`. -/
theorem emitted_y_is_x_shifted_one_column_witness :
    (([[1, 2], [6, 7]], [[2, 3], [7, 8]]) ∈
      (processFile [1, 2, 3, 4, 5, 6, 7, 8, 9, 10] 2 2).1) ∧
    (∃ c : Nat, c + 2 + 1 ≤ batchLen (List.length [1, 2, 3, 4, 5, 6, 7, 8, 9, 10]) 2 ∧
      ∀ b : Nat, b < 2 → ∀ t : Nat, t < 2 →
        (((([[1, 2], [6, 7]], [[2, 3], [7, 8]]) : Mat × Mat).1[b]?).getD [])[t]?
          = (((reshapeData [1, 2, 3, 4, 5, 6, 7, 8, 9, 10] 2)[b]?).getD [])[c + t]? ∧
        (((([[1, 2], [6, 7]], [[2, 3], [7, 8]]) : Mat × Mat).2[b]?).getD [])[t]?
          = (((reshapeData [1, 2, 3, 4, 5, 6, 7, 8, 9, 10] 2)[b]?).getD [])[c + t + 1]? ∧
        (((reshapeData [1, 2, 3, 4, 5, 6, 7, 8, 9, 10] 2)[b]?).getD [])[c + t + 1]? ≠ none) :=
  ⟨by decide,
   emitted_y_is_x_shifted_one_column [1, 2, 3, 4, 5, 6, 7, 8, 9, 10] 2 2
     (by decide) (by decide) ([[1, 2], [6, 7]], [[2, 3], [7, 8]]) (by decide)⟩

/-- Claim C5 (code bug): the spec's undersized-file scenario does not end
gracefully for every `num_steps ≥ 1`.  With 3 tokens, `batch_size = 2`
and `num_steps = 1`: `batch_len = 1`, and the loop `range(0, 3 - 1, 1)`
is entered at `i = 0`, where `x = data[:, 0:1]` has full width 1 but
`y = data[:, 1:2]` is empty, so `np.reshape(y, (2, 1))` raises
`ValueError` (crash flag `true`) — zero batches are emitted but the
pipeline does not advance to the next file.  With `num_steps = 2` the
same file ends gracefully, as does a file with `n_words < batch_size`. -/
theorem undersized_file_scenario_crashes :
    processFile [5, 6, 7] 1 2 = ([], true) ∧
    processFile [5, 6, 7] 2 2 = ([], false) ∧
    processFile [1, 2] 1 4 = ([], false) :=
  ⟨by decide, by decide, by decide⟩

theorem epochTrace_head_fed {σ β : Type} (stepF : σ → β → σ) (s : σ)
    (l : List β) (p : σ × σ) (hp : (epochTrace stepF s l)[0]? = some p) :
    p.1 = s := by
  cases l with
  | nil => simp [epochTrace] at hp
  | cons b t =>
    rw [show epochTrace stepF s (b :: t)
          = (s, stepF s b) :: epochTrace stepF (stepF s b) t from rfl,
        List.getElem?_cons_zero] at hp
    injection hp with hp'
    rw [← hp']

theorem epochTrace_chain {σ β : Type} (stepF : σ → β → σ) :
    ∀ (l : List β) (s : σ) (k : Nat) (a b : σ × σ),
      (epochTrace stepF s l)[k]? = some a →
      (epochTrace stepF s l)[k + 1]? = some b → b.1 = a.2 := by
  intro l
  induction l with
  | nil => intro s k a b ha _; simp [epochTrace] at ha
  | cons x t ih =>
    intro s k a b ha hb
    rw [show epochTrace stepF s (x :: t)
          = (s, stepF s x) :: epochTrace stepF (stepF s x) t from rfl] at ha hb
    cases k with
    | zero =>
      rw [List.getElem?_cons_zero] at ha
      rw [List.getElem?_cons_succ] at hb
      injection ha with ha'
      rw [← ha']
      exact epochTrace_head_fed stepF (stepF s x) t b hb
    | succ k =>
      rw [List.getElem?_cons_succ] at ha hb
      exact ih (stepF s x) k a b ha hb

/-- Claim C6: within one `run_epoch` call the recurrent state is threaded:
for every step `k`, the state fed into step `k+1` equals the `final_state`
returned by step `k` — the state is never reset between two batches of the
same epoch. -/
theorem state_threaded_across_batches {σ β : Type} (stepF : σ → β → σ)
    (zeroState : σ) (stream : Nat → β) (pos n k : Nat) (a b : σ × σ)
    (ha : ((runEpochAt stepF zeroState stream pos n).1)[k]? = some a)
    (hb : ((runEpochAt stepF zeroState stream pos n).1)[k + 1]? = some b) :
    b.1 = a.2 :=
  epochTrace_chain stepF ((List.range n).map (fun j => stream (pos + j)))
    zeroState k a b ha hb

/-- Concrete instance of `state_threaded_across_batches`: a three-step
epoch over `stepF s b = s + b + 1`; step 0 returns state 1, which is fed
into step 1. -/
theorem state_threaded_across_batches_witness :
    ((runEpochAt (fun (s b : Nat) => s + b + 1) 0 (fun j => j) 0 3).1)[0]? = some (0, 1) ∧
    ((runEpochAt (fun (s b : Nat) => s + b + 1) 0 (fun j => j) 0 3).1)[1]? = some (1, 3) ∧
    ((1, 3) : Nat × Nat).1 = ((0, 1) : Nat × Nat).2 :=
  ⟨by decide, by decide,
   state_threaded_across_batches (fun s b => s + b + 1) 0 (fun j => j) 0 3 0 (0, 1) (1, 3)
     (by decide) (by decide)⟩

/-- Claim C7 (counterexample): an epoch that begins mid-way through the
cycling file sequence DOES reset the state to zero.  Take an engine whose
state counts executed batches (`stepF s _ = s + 1`), a file-group pass of
4 batches, and `epoch_size = 3`: the first `run_epoch` call ends with the
generator at position 3 — mid-pass, `3 % 4 ≠ 0` — and carries out state 3,
yet the second call's first step is fed state 0, the zero state, because
`run_epoch` re-runs `state = session.run(model.initial_state)` on entry
(source line 355). -/
theorem epoch_mid_cycle_still_resets_state :
    (runEpochAt (fun (s : Nat) (_ : Nat) => s + 1) 0 (fun j => j) 0 3).2 = 3 ∧
    3 % 4 ≠ 0 ∧
    ((runEpochAt (fun (s : Nat) (_ : Nat) => s + 1) 0 (fun j => j) 0 3).1.getLast?).map Prod.snd
      = some 3 ∧
    (((runEpochAt (fun (s : Nat) (_ : Nat) => s + 1) 0 (fun j => j) 3 3).1.headI).1 : Nat) = 0 ∧
    (0 : Nat) ≠ 3 :=
  ⟨by decide, by decide, by decide, by decide, by decide⟩

/-- Claim C7 (amended): the recurrent state is reset to the zero state at
the start of EVERY `run_epoch` call, whatever the generator's position in
the cycling file sequence — including an epoch that begins mid-way through
a file-group pass; the state is carried only between batches of one call. -/
theorem run_epoch_resets_state_on_entry {σ β : Type} (stepF : σ → β → σ)
    (zeroState : σ) (stream : Nat → β) (pos n : Nat) (p : σ × σ)
    (hp : ((runEpochAt stepF zeroState stream pos n).1)[0]? = some p) :
    p.1 = zeroState :=
  epochTrace_head_fed stepF zeroState ((List.range n).map (fun j => stream (pos + j))) p hp

/-- Concrete instance of `run_epoch_resets_state_on_entry`: the epoch
starting at generator position 3 (mid-pass) is fed state 0 first. -/
theorem run_epoch_resets_state_on_entry_witness :
    ((runEpochAt (fun (s : Nat) (_ : Nat) => s + 1) 0 (fun j => j) 3 3).1)[0]? = some (0, 1) ∧
    (((0, 1) : Nat × Nat)).1 = 0 :=
  ⟨by decide,
   run_epoch_resets_state_on_entry (fun (s : Nat) (_ : Nat) => s + 1) 0 (fun j => j) 3 3 (0, 1)
     (by decide)⟩

/-- Claim C8 (counterexample): the pipeline does NOT use the final element
of an embedding entry regardless of its length — it uses the element at
index 2 (`embeddings[int(elem)][2]`, source line 127).  With a store whose
entry is `[9, 8, 7, 6]` (length 4), the id `1` of an emitted `x` window of
the file `1 2 3` (`batch_size = 1`, `num_steps = 1`) is embedded as `7`,
the third element, not as the final element `6`. -/
theorem embedding_lookup_not_last_element :
    (processFile [1, 2, 3] 1 1).1.map Prod.fst = [[[1]], [[2]]] ∧
    embedX (fun _ => [9, 8, 7, 6]) [[1]] = [[some 7]] ∧
    (([9, 8, 7, 6] : List Nat).getLast?) = some 6 ∧
    embedX (fun _ => [9, 8, 7, 6]) [[1]] ≠ [[(([9, 8, 7, 6] : List Nat).getLast?)]] :=
  ⟨by decide, by decide, by decide, by decide⟩

/-- Claim C8 (amended): the embedded vector of every id of every emitted
`x` is the element at index 2 of that id's store entry; when every entry
has exactly 3 elements — the store's `[id, word, vector]` layout — this
index-2 element IS the entry's final element. -/
theorem embedding_lookup_index_two {α : Type} (embeddings : Nat → List α)
    (h3 : ∀ tok : Nat, (embeddings tok).length = 3)
    (raw : List Nat) (ns bs : Nat) (p : Mat × Mat)
    (hp : p ∈ (processFile raw ns bs).1) :
    embedX embeddings p.1
      = p.1.map (fun l => l.map (fun e => (embeddings e).getLast?)) := by
  have he : ∀ e : Nat, embLookup embeddings e = (embeddings e).getLast? := by
    intro e
    have h := h3 e
    unfold embLookup
    rcases hl : embeddings e with _ | ⟨a, _ | ⟨b, _ | ⟨c, _ | ⟨d, tl⟩⟩⟩⟩ <;>
      rw [hl] at h <;> simp_all
  have he' : embLookup embeddings = fun e => (embeddings e).getLast? := funext he
  simp only [embedX, he']

/-- Concrete instance of `embedding_lookup_index_two`: with 3-element
entries `[4, 5, 6]` the emitted id 1 embeds to `6`, the last element. -/
theorem embedding_lookup_index_two_witness :
    embedX (fun _ => ([4, 5, 6] : List Nat)) [[1]] = [[some 6]] :=
  (embedding_lookup_index_two (fun _ => [4, 5, 6]) (fun _ => rfl) [1, 2, 3] 1 1
      ([[1]], [[2]]) (by decide)).trans (by decide)

/-- Claim C9: because `valid_config = config` binds the same object,
`valid_config.epoch_size = get_epoch_size(validation_list, valid_config)`
(source line 442) overwrites the training epoch size assigned one line
earlier (line 441): after the configuration phase the training model's
config has `epoch_size` equal to the validation-list value, not the
training-list value. -/
theorem train_config_epoch_size_overwritten (preset : ModelConfig)
    (trainSize validSize evalSize : Int) (hne : trainSize ≠ validSize) :
    ((mainConfigPhase preset trainSize validSize evalSize).2
        (mainConfigPhase preset trainSize validSize evalSize).1.configRef).epoch_size
      = validSize ∧
    ((mainConfigPhase preset trainSize validSize evalSize).2
        (mainConfigPhase preset trainSize validSize evalSize).1.configRef).epoch_size
      ≠ trainSize := by
  have h1 : ((mainConfigPhase preset trainSize validSize evalSize).2
      (mainConfigPhase preset trainSize validSize evalSize).1.configRef).epoch_size
      = validSize := rfl
  refine ⟨h1, ?_⟩
  intro h
  exact hne (h1.symm.trans h).symm

/-- Concrete instance of `train_config_epoch_size_overwritten`: train size
5, validation size 7 — the training model ends up with 7. -/
theorem train_config_epoch_size_overwritten_witness :
    (5 : Int) ≠ 7 ∧
    ((mainConfigPhase SmallConfig 5 7 9).2
        (mainConfigPhase SmallConfig 5 7 9).1.configRef).epoch_size = 7 ∧
    ((mainConfigPhase SmallConfig 5 7 9).2
        (mainConfigPhase SmallConfig 5 7 9).1.configRef).epoch_size ≠ 5 :=
  ⟨by decide, (train_config_epoch_size_overwritten SmallConfig 5 7 9 (by decide)).1,
   (train_config_epoch_size_overwritten SmallConfig 5 7 9 (by decide)).2⟩

/-- Claim C10: `gen_test` is built with `config.batch_size` and
`config.num_steps` (source lines 450-451), so every batch it yields has
`x` of shape `[config.batch_size, config.num_steps, embedding_size]` and
`y` of shape `[config.batch_size, config.num_steps]`, while the test
model's placeholders are shaped with `eval_config`'s `batch_size = 1`,
`num_steps = 1` — the shapes differ whenever the preset's `batch_size` or
`num_steps` is not 1. -/
theorem gen_test_shape_mismatch (preset : ModelConfig)
    (trainSize validSize evalSize : Int)
    (hbs : 0 < preset.batch_size) (hns : 0 < preset.num_steps)
    (hne : preset.batch_size ≠ 1 ∨ preset.num_steps ≠ 1)
    {α : Type} (embeddings : Nat → List α) (raw : List Nat) (p : Mat × Mat)
    (hp : p ∈ (processFile raw preset.num_steps preset.batch_size).1) :
    genTestShapeParams (mainConfigPhase preset trainSize validSize evalSize)
      = (preset.batch_size, preset.num_steps) ∧
    mtestShapeParams (mainConfigPhase preset trainSize validSize evalSize) = (1, 1) ∧
    (embedX embeddings p.1).length = preset.batch_size ∧
    (∀ r ∈ embedX embeddings p.1, r.length = preset.num_steps) ∧
    p.2.length = preset.batch_size ∧
    (∀ r ∈ p.2, r.length = preset.num_steps) ∧
    genTestShapeParams (mainConfigPhase preset trainSize validSize evalSize)
      ≠ mtestShapeParams (mainConfigPhase preset trainSize validSize evalSize) := by
  obtain ⟨hx1, hx2, hy1, hy2⟩ := emitted_batch_dims hbs hns hp
  refine ⟨rfl, rfl, ?_, ?_, hy1, hy2, ?_⟩
  · rw [embedX, List.length_map]; exact hx1
  · intro r hr
    simp only [embedX, List.mem_map] at hr
    obtain ⟨r0, hr0, rfl⟩ := hr
    rw [List.length_map]; exact hx2 r0 hr0
  · intro h
    have h2 : (preset.batch_size, preset.num_steps) = ((1 : Nat), (1 : Nat)) := h
    rcases hne with h1 | h1
    · exact h1 (congrArg Prod.fst h2)
    · exact h1 (congrArg Prod.snd h2)

/-- Concrete instance of `gen_test_shape_mismatch`: a preset with
`batch_size = 2`, `num_steps = 2`, and the single batch the generator
emits for the file `1 .. 10`: shape 2 by 2, not the test model's 1 by 1. -/
theorem gen_test_shape_mismatch_witness :
    (([[1, 2], [6, 7]], [[2, 3], [7, 8]]) ∈
      (processFile [1, 2, 3, 4, 5, 6, 7, 8, 9, 10] 2 2).1) ∧
    (genTestShapeParams (mainConfigPhase ⟨5, 1, 2, 2, 1, 1, 2, 0, 2, 1⟩ 1 1 1) = (2, 2) ∧
     mtestShapeParams (mainConfigPhase ⟨5, 1, 2, 2, 1, 1, 2, 0, 2, 1⟩ 1 1 1) = (1, 1) ∧
     (embedX (fun _ => ([0, 0, 0] : List Nat)) [[1, 2], [6, 7]]).length = 2 ∧
     (∀ r ∈ embedX (fun _ => ([0, 0, 0] : List Nat)) [[1, 2], [6, 7]], r.length = 2) ∧
     ([[2, 3], [7, 8]] : Mat).length = 2 ∧
     (∀ r ∈ ([[2, 3], [7, 8]] : Mat), r.length = 2) ∧
     genTestShapeParams (mainConfigPhase ⟨5, 1, 2, 2, 1, 1, 2, 0, 2, 1⟩ 1 1 1)
       ≠ mtestShapeParams (mainConfigPhase ⟨5, 1, 2, 2, 1, 1, 2, 0, 2, 1⟩ 1 1 1)) :=
  ⟨by decide,
   gen_test_shape_mismatch ⟨5, 1, 2, 2, 1, 1, 2, 0, 2, 1⟩ 1 1 1 (by decide) (by decide)
     (Or.inl (by decide)) (fun _ => ([0, 0, 0] : List Nat))
     [1, 2, 3, 4, 5, 6, 7, 8, 9, 10] ([[1, 2], [6, 7]], [[2, 3], [7, 8]]) (by decide)⟩

end ContextualLSTM
